import Mathlib

/-!
Verification of the per-user delivery scheduling core of an advent-calendar
chat bot (source: `bot.py`).  Calendar dates are modelled as explicit
year/month/day triples with the Gregorian day-increment that Python's
`date + timedelta(days=1)` performs, and date/datetime comparison is modelled
through an order-embedding key (faithful to Python's lexicographic date
order on valid dates).  The handlers `schedule_next_gift`,
`send_scheduled_gift`, `gift` and `pick_end_date` are translated from the
source; awaiting a transport send that raises is modelled by a `sendOk`
flag: when the send raises, the handler aborts at that point and the
statements after the `await` never run.
-/

/-- A calendar date, as Python's `datetime.date`: year, month (1..12),
day (1..days-in-month). -/
structure Date where
  year : Nat
  month : Nat
  day : Nat
deriving DecidableEq, Repr

/-- Gregorian leap-year test (Python `calendar.isleap` semantics, as used by
`datetime.date` arithmetic). -/
def isLeap (y : Nat) : Bool :=
  (y % 4 == 0 && y % 100 != 0) || y % 400 == 0

/-- Number of days in a month of a given year (Gregorian). -/
def daysInMonth (y m : Nat) : Nat :=
  if m = 2 then (if isLeap y then 29 else 28)
  else if m = 4 ∨ m = 6 ∨ m = 9 ∨ m = 11 then 30
  else 31

/-- Order-embedding key: for valid dates, `key` order coincides with the
lexicographic (year, month, day) order that Python uses to compare dates
(month ≤ 12 < 16 and day ≤ 31 < 32, so the packing is injective and
monotone). -/
def Date.key (d : Date) : Nat :=
  d.year * 512 + d.month * 32 + d.day

/-- A date is valid when its month and day are in range; every Python
`datetime.date` object satisfies this by construction. -/
def Date.Valid (d : Date) : Prop :=
  1 ≤ d.month ∧ d.month ≤ 12 ∧ 1 ≤ d.day ∧ d.day ≤ daysInMonth d.year d.month

instance (d : Date) : Decidable d.Valid := by
  unfold Date.Valid; exact inferInstance

/-- Python `d + timedelta(days=1)`: increment the day, rolling over month
and year ends. -/
def Date.nextDay (d : Date) : Date :=
  if d.day < daysInMonth d.year d.month then ⟨d.year, d.month, d.day + 1⟩
  else if d.month < 12 then ⟨d.year, d.month + 1, 1⟩
  else ⟨d.year + 1, 1, 1⟩

/-- Python `max(a, b)` on two dates: `b` exactly when `a < b`. -/
def Date.max (a b : Date) : Date :=
  if a.key < b.key then b else a

/-- A timezone-fixed datetime: a date plus minutes past midnight
(the bot pins everything to one fixed timezone). -/
structure DateTime where
  d : Date
  minutes : Nat
deriving DecidableEq, Repr

/-- Chronological key for datetimes. -/
def DateTime.key (t : DateTime) : Nat :=
  t.d.key * 1440 + t.minutes

/-- `SEND_TIME = time(12, 0)`, expressed in minutes past midnight. -/
def SEND_TIME : Nat := 12 * 60

/-- `datetime.combine(day, SEND_TIME, tzinfo=MOSCOW_TZ)`. -/
def fireAt (day : Date) : DateTime := ⟨day, SEND_TIME⟩

/-- The per-user plan record (`UserPlan` dataclass in the source). -/
structure UserPlan where
  start_date : Date
  end_date : Date
  next_date : Date
  last_gift_date : Option Date := none
deriving DecidableEq, Repr

/-- Gift text for December 1 (source string, Python adjacent-literal
concatenation applied). -/
def giftDec1 : String :=
  "❝ Нет ничего лучше историй, рассказанных ветреной ночью, когда люди находят тёплое укрытие "
  ++ "в холодном мире. ❞\n"
  ++ "📚 Стивен Кинг.\n\n"
  ++ "И как раз под эту цитату подойдет теплый и уютный ПЛЕДИК!! Сегодня, на тебе пару ссылочек "
  ++ "на классные пледы:\n"
  ++ "1. 🪼OZON -- https://www.ozon.ru/product/pled-novogodniy-100h140-sm-selecta-christmas-2639971387/"
  ++ "?from=share_ios&perehod=smm_share_button_productpage_link\n"
  ++ "2. 🦄WB -- https://www.wildberries.ru/catalog/583423660/detail.aspx?size=797534601\n"
  ++ "3. 🐝Yandex Market -- https://market.yandex.ru/cc/8CfCY2"

/-- Gift text for December 2. -/
def giftDec2 : String :=
  "❝Мысли похожи на вязание. Иногда они не вяжутся, а иногда пытаешься вязать свитер, "
  ++ "но все равно получаются носки❝\n"
  ++ "🎸Дубровка Олег\n\n"
  ++ "И сегодня ты получаешь в подарочек.......... СВИТЕР!!!! Зима это самое время закутаться "
  ++ "в своем свитре и пить горячий шоколад, так что выбери его:\n"
  ++ "1. WB -- https://www.wildberries.ru/catalog/297557927/detail.aspx?size=452594941\n"
  ++ "2. OZON -- https://ozon.ru/t/ba1x0uq\n"
  ++ "3. Yandex Market -- https://market.yandex.ru/cc/8CfSXv"

/-- Gift text for December 25. -/
def giftDec25 : String :=
  "❝ Пожелание «Счастливого Нового года!» чем дальше, тем больше означает триумф надежды над опытом. ❞\n"
  ++ "🧑🏼 Роберт Орбен \n\n"
  ++ "С Католическим рождеством!!!! Сегодня твой подарочек подойдет как раз всех поздравить -- "
  ++ "рождественские и новогодние открытки!!\n"
  ++ "1. Ozon -- https://www.ozon.ru/product/novogodnie-otkrytki-mini-nabor-otkrytok-na-novyy-god-2026-novogodniy-dekor-1256345396/"
  ++ "?at=vQtrz4LzvCPVmnlkfz9G81Ds66N39Dfk0PoVyCo8JXB5 \n"
  ++ "2. WB -- https://www.wildberries.ru/catalog/579276682/detail.aspx?size=792465280 \n"
  ++ "3. Yandex Market -- https://market.yandex.ru/cc/8HyWG8"

/-- Gift text for December 26. -/
def giftDec26 : String :=
  "❝ Нет лучшего утешения в старости, чем сознание того, что удалось всю силу молодости "
  ++ "воплотить в творения, которые не стареют. ❞\n\n"
  ++ "🎪 Артур Шопенгауэр\n\n"
  ++ "Осталось 5 дней до Нового года!!! И нет ничего лучшего, чем сидеть с новогодним настроением, "
  ++ "попивать какао и писать/рисовать в своем блокнотике♡\n"
  ++ "1. WB --  https://www.wildberries.ru/catalog/8400256/detail.aspx?size=28490911 \n"
  ++ "2. OZON -- https://www.ozon.ru/product/novogodniy-podarochnyy-nabor-6-bloknotov-dlya-detey-na-novyy-god-6-shtuk-30-listov-3200775112/"
  ++ "?at=6WtZYM0YXI53GnEBTP9AqNLtEPLOMPfN42kDqHPQ9Gw1&from_sku=3200775112&oos_search=false \n"
  ++ "3. Yandex Market -- https://market.yandex.ru/cc/8HyW5V"

/-- Gift text for December 27. -/
def giftDec27 : String :=
  "❝ Невозможно найти счастье в себе, не попробовав его в объятиях хотя бы одного человека. ❞\n\n"
  ++ "📚 Эльчин Сафарли. \n\n"
  ++ "Осталось 4 дня до Нового года!!! И если у вас нет человека, которого вы можете обнять, "
  ++ "обнимите мягкую игрушку✧\n"
  ++ "1. Ozon -- https://www.ozon.ru/product/myagkaya-igrushka-playtown-medved-pekar-25-sm-2968654518/"
  ++ "?at=pZtp3yy4QUW6wvqntvDj3NJsgOJ3Y0TO640GqhJ92E7Y \n"
  ++ "2. WB -- https://www.wildberries.ru/catalog/297834630/detail.aspx?size=452998035 \n"
  ++ "3. Yandex Market -- https://market.yandex.ru/cc/8HyoFt"

/-- Gift text for December 28. -/
def giftDec28 : String :=
  "❝ Запахи имеют ту особенность, что навевают воспоминания о прошлом с его звуками и ароматами, "
  ++ "несравнимыми с теми, что тебя окружают в настоящем. ❞\n\n"
  ++ "📚 Лаура Эскивель. \n\n"
  ++ "3 дня до Нового года!!! Урааа, теперь надо настроить муд под него, и с этим тебе помогут "
  ++ "ароматические свечи!\n"
  ++ "1. WB -- https://www.wildberries.ru/catalog/297834630/detail.aspx?size=452998035 \n"
  ++ "2. Ozon -- https://ozon.ru/t/fArd3RG \n"
  ++ "3. Yandex Market -- https://market.yandex.ru/cc/8HzGTw"

/-- Gift text for December 29. -/
def giftDec29 : String :=
  "❝ Я должен был пить много чая, ибо без него не мог работать. Чай высвобождает те возможности,"
  ++ " которые дремлют в глубине моей души. ❞\n\n"
  ++ "📚 Лев Николаевич Толстой. \n\n"
  ++ "ДВА ДНЯ ДО НОВОГО ГОДА!! Ура и чтобы отпраздновать это события, посади всех за чашечку чая :3\n"
  ++ "1. WB -- https://www.wildberries.ru/catalog/690979768/detail.aspx?size=943747644 \n"
  ++ "2. OZON -- https://www.ozon.ru/product/nabor-novogodnih-kruzhek-lefard-shchelkunchik-305-ml-2-shtuki-farfor-1420785313/?at=79tn1yyGEcR92pXPuyP2g8KfPoVn7RtOzv2mGc5KpGW \n"
  ++ "3. Yandex Market -- https://market.yandex.ru/cc/8Kxm54"

/-- Gift text for December 30. -/
def giftDec30 : String :=
  "❝ Снег...он ухитряется залететь даже в сны...даже в лето, "
  ++ " потому что зима мне почему-то никогда не снится. ❞\n\n"
  ++ "📚 Ольга Громыко. ❞\n\n"
  ++ "ОДИН ДЕНЬ ДО НОВОГО ГОДА!!! Надеюсь у каждого из нас есть снег сейчас,  "
  ++ "даже если нет, в снежном шаре он будет круглый год!!\n"
  ++ "1. WB -- https://www.wildberries.ru/catalog/187864053/detail.aspx?size=307883201 \n"
  ++ "2. OZON -- https://ozon.ru/t/baEcZb1 \n"
  ++ "3. Yandex Market -- https://market.yandex.ru/cc/8HzmdN"

/-- Gift text for December 31. -/
def giftDec31 : String :=
  "УРАА, ЗАВТРА НОВЫЙ ГОД!!!!! ❝ Новый год. Время обещаний и веры в то, что с утра всё начнётся заново, "
  ++ "станет лучше и счастливее. ❞\n\n"
  ++ "📚 Януш Леон Вишневский. \n\n"
  ++ "И для праздничного настроения — настоящая магия света ✨\n"
  ++ "Пусть в этот вечер вокруг будет тепло, уют и немного новогоднего волшебства!\n\n"
  ++ "1. WB -- https://www.wildberries.ru/catalog/272518316/detail.aspx?size=420740421 \n"
  ++ "2. OZON -- https://ozon.ru/t/ifPUFxK \n"
  ++ "3. Yandex Market -- https://market.yandex.ru/cc/8KxzbG"

/-- Two-digit zero-padded decimal, as `strftime` field formatting. -/
def pad2 (n : Nat) : String :=
  if n < 10 then "0" ++ toString n else toString n

/-- `get_gift_text(gift_date)`: the text of the gift for a concrete date,
with the generic fallback for dates that have no bespoke content
(`f-string` with `strftime` of the day and month). -/
def get_gift_text (gift_date : Date) : String :=
  if gift_date.month = 12 ∧ gift_date.day = 1 then giftDec1
  else if gift_date.month = 12 ∧ gift_date.day = 2 then giftDec2
  else if gift_date.month = 12 ∧ gift_date.day = 25 then giftDec25
  else if gift_date.month = 12 ∧ gift_date.day = 26 then giftDec26
  else if gift_date.month = 12 ∧ gift_date.day = 27 then giftDec27
  else if gift_date.month = 12 ∧ gift_date.day = 28 then giftDec28
  else if gift_date.month = 12 ∧ gift_date.day = 29 then giftDec29
  else if gift_date.month = 12 ∧ gift_date.day = 30 then giftDec30
  else if gift_date.month = 12 ∧ gift_date.day = 31 then giftDec31
  else "Вот твой подарочек на " ++ pad2 gift_date.day ++ "." ++ pad2 gift_date.month ++ "! 🎁"

/-- `schedule_next_gift(context, user_id, plan)`: cancels any pending job for
the user and possibly arms one new timer.  The returned value is the fire
time of the timer armed (and `none` when no timer is armed); the job-queue
bookkeeping carries no other state. -/
def schedule_next_gift (plan : UserPlan) (now : DateTime) : Option DateTime :=
  if plan.end_date.key < plan.next_date.key then none
  else
    let run_at := fireAt plan.next_date
    if run_at.key ≤ now.key then
      let tomorrow := plan.next_date.nextDay
      if plan.end_date.key < tomorrow.key then none
      else some (fireAt tomorrow)
    else some run_at

/-- Reply of `/gift` when the user has no stored plan. -/
def notConfiguredMsg : String :=
  "Похоже, ты ещё не настроил свой адвент-календарь. Напиши /start!"

/-- Framing header of the `/gift` reply when today's gift was already
delivered (duplicate replay). -/
def duplicateHeader : String :=
  "Сегодня ты уже получил свой подарок, вот повтор этого сообщения!\n\n"

/-- Framing header of the `/gift` reply on a first delivery of the day
(`SEND_TIME.strftime` of `time(12, 0)` is the literal 12:00). -/
def freshHeader : String :=
  "Приветик!! Сегодня твой подарок еще не получен (он появляется сам в 12:00 по московскому времени). "
  ++ "Вот он сейчас :3!!\n\n"

/-- The full duplicate-replay message of `/gift`. -/
def duplicateMsg (today : Date) : String := duplicateHeader ++ get_gift_text today

/-- The full first-delivery message of `/gift`. -/
def freshMsg (today : Date) : String := freshHeader ++ get_gift_text today

/-- Confirmation message sent when date selection completes. -/
def readyMsg : String := "Ураа! Твой адвент-календарь готов!"

/-- Re-prompt message when the selected end date precedes the start date. -/
def rePromptMsg : String :=
  "Конечная дата не может быть раньше начальной. Выбери заново конец (24–31 декабря)."

/-- `STATE_END = 2`, the conversation state that keeps asking for the end
date. -/
def STATE_END : Int := 2

/-- `ConversationHandler.END` (the library constant −1) returned when the
conversation finishes. -/
def CONVERSATION_END : Int := -1

/-- Observable outcome of one inbound-event handler run: the outbound
messages in order, the user's store entry afterwards, whether
`db_upsert_plan` ran, and whether `schedule_next_gift` re-armed. -/
structure HandlerOutcome where
  messages : List String
  store : Option UserPlan
  persisted : Bool
  rearmed : Bool
deriving DecidableEq, Repr

/-- Outcome of the `pick_end_date` conversation step: outbound messages,
resulting store entry for the user, whether `db_upsert_plan` ran, and the
conversation state returned. -/
structure EndOutcome where
  messages : List String
  store : Option UserPlan
  persisted : Bool
  state : Int
deriving DecidableEq, Repr

/-- The `/gift` command handler, acting on the user's current store entry at
date `today`.  `sendOk` models the transport `await`: when the send raises,
execution aborts at that statement, so nothing after it (mutation, persist,
re-arm) runs. -/
def gift : Option UserPlan → Date → Bool → HandlerOutcome
  | none, _, sendOk =>
      if sendOk then ⟨[notConfiguredMsg], none, false, false⟩
      else ⟨[], none, false, false⟩
  | some plan, today, sendOk =>
      if plan.last_gift_date = some today then
        if sendOk then ⟨[duplicateMsg today], some plan, false, false⟩
        else ⟨[], some plan, false, false⟩
      else if sendOk then
        let plan1 : UserPlan := { plan with last_gift_date := some today }
        if plan1.next_date.key ≤ today.key then
          let plan2 : UserPlan := { plan1 with next_date := today.nextDay }
          ⟨[freshMsg today], some plan2, true, true⟩
        else
          ⟨[freshMsg today], some plan1, true, false⟩
      else ⟨[], some plan, false, false⟩

/-- The scheduled-timer callback `send_scheduled_gift`, acting on the user's
current store entry.  `sendOk` models the transport `await` as in `gift`. -/
def send_scheduled_gift : Option UserPlan → Bool → HandlerOutcome
  | none, _ => ⟨[], none, false, false⟩
  | some plan, sendOk =>
      if sendOk then
        let plan2 : UserPlan :=
          { plan with last_gift_date := some plan.next_date,
                      next_date := plan.next_date.nextDay }
        ⟨[get_gift_text plan.next_date], some plan2, true, true⟩
      else ⟨[], some plan, false, false⟩

/-- The `pick_end_date` conversation step: the user (whose previous store
entry is `prev`) has chosen `start_dt` and now presses the button for day
`end_day`; `today` is the current date.  The end date is
`date(start_dt.year, 12, end_day)`. -/
def pick_end_date (prev : Option UserPlan) (start_dt : Date) (end_day : Nat)
    (today : Date) : EndOutcome :=
  let end_dt : Date := ⟨start_dt.year, 12, end_day⟩
  if end_dt.key < start_dt.key then
    ⟨[rePromptMsg], prev, false, STATE_END⟩
  else
    let next_date := Date.max start_dt today
    if start_dt.key ≤ today.key ∧ today.key ≤ end_dt.key then
      ⟨[readyMsg, get_gift_text today],
        some ⟨start_dt, end_dt, today.nextDay, some today⟩, true, CONVERSATION_END⟩
    else
      ⟨[readyMsg], some ⟨start_dt, end_dt, next_date, none⟩, true, CONVERSATION_END⟩

/-- One plan-mutating operation: a scheduled timer fire, or an on-demand
`/gift` request arriving on a given date (with a successful transport
send). -/
inductive PlanOp where
  | scheduled : PlanOp
  | onDemand : Date → PlanOp

/-- Every date carried by the operation is a valid calendar date. -/
def PlanOp.ValidDates : PlanOp → Prop
  | .scheduled => True
  | .onDemand t => t.Valid

/-- The store entry after running one mutating operation. -/
def runOp (s : Option UserPlan) : PlanOp → Option UserPlan
  | .scheduled => (send_scheduled_gift s true).store
  | .onDemand t => (gift s t true).store

/-- The stored-plan invariant: the window start never exceeds the next due
date, and the last delivered date (when present) is strictly before the
next due date. -/
def lastOkB (p : UserPlan) : Bool :=
  match p.last_gift_date with
  | none => true
  | some d => d.key < p.next_date.key

/-- The full plan invariant from the data-model section. -/
def PlanInv (p : UserPlan) : Prop :=
  p.start_date.key ≤ p.next_date.key ∧ lastOkB p = true

instance (p : UserPlan) : Decidable (PlanInv p) := by
  unfold PlanInv; exact inferInstance

/-- The plan as mutated by a non-duplicate `/gift` delivery on `today`:
`last_gift_date` becomes `today`, and `next_date` advances to the day after
`today` exactly when it had not already moved past `today`. -/
def giftAdvance (plan : UserPlan) (today : Date) : UserPlan :=
  if plan.next_date.key ≤ today.key then
    { plan with last_gift_date := some today, next_date := today.nextDay }
  else { plan with last_gift_date := some today }

lemma daysInMonth_le (y m : Nat) : daysInMonth y m ≤ 31 := by
  unfold daysInMonth
  split
  · split <;> omega
  · split <;> omega

lemma daysInMonth_pos (y m : Nat) : 1 ≤ daysInMonth y m := by
  unfold daysInMonth
  split
  · split <;> omega
  · split <;> omega

lemma daysInMonth_december (y : Nat) : daysInMonth y 12 = 31 := by
  unfold daysInMonth
  norm_num

lemma key_lt_nextDay (d : Date) (h : d.Valid) : d.key < d.nextDay.key := by
  obtain ⟨h1, h2, h3, h4⟩ := h
  have hle := daysInMonth_le d.year d.month
  unfold Date.nextDay
  by_cases hc : d.day < daysInMonth d.year d.month
  · rw [if_pos hc]
    simp only [Date.key]
    omega
  · rw [if_neg hc]
    by_cases hm : d.month < 12
    · rw [if_pos hm]
      simp only [Date.key]
      omega
    · rw [if_neg hm]
      simp only [Date.key]
      omega

lemma nextDay_valid (d : Date) (h : d.Valid) : d.nextDay.Valid := by
  obtain ⟨h1, h2, h3, h4⟩ := h
  unfold Date.nextDay
  by_cases hc : d.day < daysInMonth d.year d.month
  · rw [if_pos hc]
    simp only [Date.Valid]
    omega
  · rw [if_neg hc]
    by_cases hm : d.month < 12
    · rw [if_pos hm]
      simp only [Date.Valid]
      have := daysInMonth_pos d.year (d.month + 1)
      omega
    · rw [if_neg hm]
      simp only [Date.Valid]
      have := daysInMonth_pos (d.year + 1) 1
      omega

lemma nextDay_le_of_lt (a b : Date) (ha : a.Valid) (hb : b.Valid)
    (h : a.key < b.key) : a.nextDay.key ≤ b.key := by
  obtain ⟨ha1, ha2, ha3, ha4⟩ := ha
  obtain ⟨hb1, hb2, hb3, hb4⟩ := hb
  have hda := daysInMonth_le a.year a.month
  have hdb := daysInMonth_le b.year b.month
  unfold Date.key at h
  unfold Date.nextDay
  by_cases hc : a.day < daysInMonth a.year a.month
  · rw [if_pos hc]
    simp only [Date.key]
    omega
  · rw [if_neg hc]
    by_cases hm : a.month < 12
    · rw [if_pos hm]
      simp only [Date.key]
      by_cases hy : b.year = a.year
      · by_cases hmm : b.month = a.month
        · rw [hy, hmm] at hb4
          omega
        · omega
      · omega
    · rw [if_neg hm]
      simp only [Date.key]
      have h12 : a.month = 12 := by omega
      have hdima : daysInMonth a.year a.month = 31 := by
        rw [h12]; exact daysInMonth_december a.year
      by_cases hy : b.year = a.year
      · by_cases hmm : b.month = a.month
        · rw [hy, hmm] at hb4
          omega
        · omega
      · omega

lemma gift_duplicate (p : UserPlan) (today : Date)
    (h : p.last_gift_date = some today) :
    gift (some p) today true = ⟨[duplicateMsg today], some p, false, false⟩ := by
  simp [gift, h]

lemma gift_fresh (p : UserPlan) (today : Date)
    (h : p.last_gift_date ≠ some today) :
    gift (some p) today true = ⟨[freshMsg today], some (giftAdvance p today), true,
      decide (p.next_date.key ≤ today.key)⟩ := by
  unfold gift giftAdvance
  by_cases hle : p.next_date.key ≤ today.key
  · simp [h, hle]
  · simp [h, hle]

lemma send_scheduled_some (p : UserPlan) :
    send_scheduled_gift (some p) true
      = ⟨[get_gift_text p.next_date],
          some { p with last_gift_date := some p.next_date,
                        next_date := p.next_date.nextDay }, true, true⟩ := by
  simp [send_scheduled_gift]

lemma runOp_mono (plan : UserPlan) (op : PlanOp) (hv : plan.next_date.Valid)
    (hop : op.ValidDates) :
    ∃ p, runOp (some plan) op = some p ∧ plan.next_date.key ≤ p.next_date.key ∧
      p.next_date.Valid := by
  cases op with
  | scheduled =>
      refine ⟨{ plan with last_gift_date := some plan.next_date,
                          next_date := plan.next_date.nextDay }, ?_, ?_, ?_⟩
      · simp [runOp, send_scheduled_some]
      · exact Nat.le_of_lt (key_lt_nextDay _ hv)
      · exact nextDay_valid _ hv
  | onDemand t =>
      have htv : t.Valid := hop
      by_cases hd : plan.last_gift_date = some t
      · exact ⟨plan, by simp [runOp, gift_duplicate _ _ hd], le_refl _, hv⟩
      · refine ⟨giftAdvance plan t, by simp [runOp, gift_fresh _ _ hd], ?_, ?_⟩
        · unfold giftAdvance
          by_cases hle : plan.next_date.key ≤ t.key
          · rw [if_pos hle]
            exact Nat.le_of_lt (Nat.lt_of_le_of_lt hle (key_lt_nextDay t htv))
          · rw [if_neg hle]
        · unfold giftAdvance
          by_cases hle : plan.next_date.key ≤ t.key
          · rw [if_pos hle]
            exact nextDay_valid t htv
          · rw [if_neg hle]
            exact hv

/-- C1 (counterexample): for the plan with start = 2024-12-05,
end = 2024-12-10, next = 2024-12-05 and now = 2024-12-06 13:00, `rearm`
(`schedule_next_gift`) arms the timer for 2024-12-06 12:00 — not for
2024-12-07 as the claim states — and that fire timestamp is not strictly
after the current time. -/
theorem C1_rearm_counterexample :
    schedule_next_gift ⟨⟨2024, 12, 5⟩, ⟨2024, 12, 10⟩, ⟨2024, 12, 5⟩, none⟩
        ⟨⟨2024, 12, 6⟩, 13 * 60⟩ = some (fireAt ⟨2024, 12, 6⟩) ∧
    schedule_next_gift ⟨⟨2024, 12, 5⟩, ⟨2024, 12, 10⟩, ⟨2024, 12, 5⟩, none⟩
        ⟨⟨2024, 12, 6⟩, 13 * 60⟩ ≠ some (fireAt ⟨2024, 12, 7⟩) ∧
    ¬ (⟨⟨2024, 12, 6⟩, 13 * 60⟩ : DateTime).key < (fireAt ⟨2024, 12, 6⟩).key :=
  ⟨by decide, by decide, by decide⟩

/-- C1 (amended): `schedule_next_gift` arms a timer only if the (possibly
once-advanced) target date does not exceed `end_date`, and the armed fire
time is always the fixed send time of the original target day or of the day
after it; when the original fire time is strictly after `now`, the timer is
armed exactly at that time, hence strictly after `now`.  After the one-day
advance the armed fire time may still be at or before `now` (multi-day
downtime), and in the spec's scenario (next = 2024-12-05,
now = 2024-12-06 13:00) the timer is re-armed for 2024-12-06, not
2024-12-07. -/
theorem C1_rearm_only_in_window (plan : UserPlan) (now t : DateTime)
    (h : schedule_next_gift plan now = some t) :
    (t.d = plan.next_date ∨ t.d = plan.next_date.nextDay) ∧
    t.d.key ≤ plan.end_date.key ∧
    t.minutes = SEND_TIME ∧
    (now.key < (fireAt plan.next_date).key →
      t = fireAt plan.next_date ∧ now.key < t.key) := by
  by_cases h1 : plan.end_date.key < plan.next_date.key
  · simp only [schedule_next_gift] at h
    rw [if_pos h1] at h
    exact Option.noConfusion h
  · by_cases h2 : (fireAt plan.next_date).key ≤ now.key
    · by_cases h3 : plan.end_date.key < plan.next_date.nextDay.key
      · simp only [schedule_next_gift] at h
        rw [if_neg h1, if_pos h2, if_pos h3] at h
        exact Option.noConfusion h
      · simp only [schedule_next_gift] at h
        rw [if_neg h1, if_pos h2, if_neg h3] at h
        injection h with h4
        subst h4
        refine ⟨Or.inr rfl, Nat.le_of_not_lt h3, rfl, ?_⟩
        intro hx
        exact absurd h2 (Nat.not_le_of_lt hx)
    · simp only [schedule_next_gift] at h
      rw [if_neg h1, if_neg h2] at h
      injection h with h4
      subst h4
      exact ⟨Or.inl rfl, Nat.le_of_not_lt h1, rfl,
        fun _ => ⟨rfl, Nat.lt_of_not_le h2⟩⟩

/-- C1 (witness): the amended theorem applied at the spec's concrete
scenario, where the armed timer is the 2024-12-06 fire time. -/
theorem C1_rearm_only_in_window_witness :
    ((fireAt ⟨2024, 12, 6⟩).d = (⟨2024, 12, 5⟩ : Date) ∨
      (fireAt ⟨2024, 12, 6⟩).d = (⟨2024, 12, 5⟩ : Date).nextDay) ∧
    (fireAt ⟨2024, 12, 6⟩).d.key ≤ (⟨2024, 12, 10⟩ : Date).key ∧
    (fireAt ⟨2024, 12, 6⟩).minutes = SEND_TIME ∧
    ((⟨⟨2024, 12, 6⟩, 13 * 60⟩ : DateTime).key < (fireAt ⟨2024, 12, 5⟩).key →
      fireAt ⟨2024, 12, 6⟩ = fireAt ⟨2024, 12, 5⟩ ∧
      (⟨⟨2024, 12, 6⟩, 13 * 60⟩ : DateTime).key < (fireAt ⟨2024, 12, 6⟩).key) :=
  C1_rearm_only_in_window ⟨⟨2024, 12, 5⟩, ⟨2024, 12, 10⟩, ⟨2024, 12, 5⟩, none⟩
    ⟨⟨2024, 12, 6⟩, 13 * 60⟩ (fireAt ⟨2024, 12, 6⟩) (by decide)

/-- C7: when the transport send raises (does not succeed), neither the
on-demand handler nor the scheduled-delivery callback advances the plan:
the store entry is unchanged, no message goes out after the failure,
nothing is persisted and no timer is re-armed. -/
theorem C7_no_advance_on_send_failure (plan : UserPlan) (today : Date) :
    gift (some plan) today false = ⟨[], some plan, false, false⟩ ∧
    send_scheduled_gift (some plan) false = ⟨[], some plan, false, false⟩ := by
  constructor
  · by_cases hd : plan.last_gift_date = some today <;> simp [gift, hd]
  · simp [send_scheduled_gift]

lemma giftAdvance_last (plan : UserPlan) (today : Date) :
    (giftAdvance plan today).last_gift_date = some today := by
  unfold giftAdvance
  by_cases hle : plan.next_date.key ≤ today.key
  · rw [if_pos hle]
  · rw [if_neg hle]

/-- C2: a delivery (on-demand on `today`, or scheduled for `next_date`) sets
`last_gift_date` to the delivered date and moves `next_date` to the larger
of the old `next_date` and the day after the delivered date; in particular
an on-demand delivery on a day strictly earlier than `next_date` sends that
day's content and leaves `next_date` unchanged. -/
theorem C2_advance_after_delivery (plan : UserPlan) (today : Date)
    (hnv : plan.next_date.Valid) (htv : today.Valid)
    (hnd : plan.last_gift_date ≠ some today) :
    (gift (some plan) today true).store
        = some { plan with last_gift_date := some today,
                           next_date := Date.max plan.next_date today.nextDay } ∧
    (send_scheduled_gift (some plan) true).store
        = some { plan with last_gift_date := some plan.next_date,
                           next_date := Date.max plan.next_date plan.next_date.nextDay } ∧
    (today.key < plan.next_date.key →
      (gift (some plan) today true).store
          = some { plan with last_gift_date := some today } ∧
      (gift (some plan) today true).messages = [freshMsg today]) := by
  refine ⟨?_, ?_, ?_⟩
  · simp only [gift_fresh plan today hnd]
    unfold giftAdvance
    by_cases hle : plan.next_date.key ≤ today.key
    · rw [if_pos hle]
      have hm : Date.max plan.next_date today.nextDay = today.nextDay := by
        unfold Date.max
        rw [if_pos (Nat.lt_of_le_of_lt hle (key_lt_nextDay today htv))]
      rw [hm]
    · rw [if_neg hle]
      have hm : Date.max plan.next_date today.nextDay = plan.next_date := by
        unfold Date.max
        rw [if_neg (Nat.not_lt.mpr (nextDay_le_of_lt today plan.next_date htv hnv
          (Nat.lt_of_not_le hle)))]
      rw [hm]
  · simp only [send_scheduled_some]
    have hm : Date.max plan.next_date plan.next_date.nextDay
        = plan.next_date.nextDay := by
      unfold Date.max
      rw [if_pos (key_lt_nextDay plan.next_date hnv)]
    rw [hm]
  · intro hlt
    have hle : ¬ plan.next_date.key ≤ today.key := Nat.not_le.mpr hlt
    simp only [gift_fresh plan today hnd]
    unfold giftAdvance
    rw [if_neg hle]
    exact ⟨rfl, trivial⟩

/-- C2 (witness): the theorem at the spec's scenario, an on-demand request
on 2024-12-05 while the plan's next due date is already 2024-12-07 — the
content for 2024-12-05 is delivered and `next_date` stays 2024-12-07. -/
theorem C2_advance_after_delivery_witness :
    (gift (some ⟨⟨2024, 12, 5⟩, ⟨2024, 12, 10⟩, ⟨2024, 12, 7⟩, none⟩)
        ⟨2024, 12, 5⟩ true).store
      = some ⟨⟨2024, 12, 5⟩, ⟨2024, 12, 10⟩, ⟨2024, 12, 7⟩, some ⟨2024, 12, 5⟩⟩ ∧
    (send_scheduled_gift (some ⟨⟨2024, 12, 5⟩, ⟨2024, 12, 10⟩, ⟨2024, 12, 7⟩, none⟩)
        true).store
      = some ⟨⟨2024, 12, 5⟩, ⟨2024, 12, 10⟩, ⟨2024, 12, 8⟩, some ⟨2024, 12, 7⟩⟩ ∧
    ((⟨2024, 12, 5⟩ : Date).key < (⟨2024, 12, 7⟩ : Date).key →
      (gift (some ⟨⟨2024, 12, 5⟩, ⟨2024, 12, 10⟩, ⟨2024, 12, 7⟩, none⟩)
          ⟨2024, 12, 5⟩ true).store
        = some ⟨⟨2024, 12, 5⟩, ⟨2024, 12, 10⟩, ⟨2024, 12, 7⟩, some ⟨2024, 12, 5⟩⟩ ∧
      (gift (some ⟨⟨2024, 12, 5⟩, ⟨2024, 12, 10⟩, ⟨2024, 12, 7⟩, none⟩)
          ⟨2024, 12, 5⟩ true).messages = [freshMsg ⟨2024, 12, 5⟩]) :=
  C2_advance_after_delivery ⟨⟨2024, 12, 5⟩, ⟨2024, 12, 10⟩, ⟨2024, 12, 7⟩, none⟩
    ⟨2024, 12, 5⟩ (by decide) (by decide) (by decide)

/-- C3 (counterexample): two same-day on-demand requests do not produce two
identical outbound messages — the first reply carries the first-delivery
header, the second the duplicate-replay header, and the two strings
differ. -/
theorem C3_identical_messages_counterexample :
    (gift (some ⟨⟨2024, 12, 1⟩, ⟨2024, 12, 31⟩, ⟨2024, 12, 15⟩, none⟩)
        ⟨2024, 12, 15⟩ true).messages = [freshMsg ⟨2024, 12, 15⟩] ∧
    (gift ((gift (some ⟨⟨2024, 12, 1⟩, ⟨2024, 12, 31⟩, ⟨2024, 12, 15⟩, none⟩)
        ⟨2024, 12, 15⟩ true).store) ⟨2024, 12, 15⟩ true).messages
      = [duplicateMsg ⟨2024, 12, 15⟩] ∧
    freshMsg ⟨2024, 12, 15⟩ ≠ duplicateMsg ⟨2024, 12, 15⟩ :=
  ⟨rfl, rfl, by decide⟩

/-- C3 (amended): calling the on-demand handler twice within the same
calendar day produces two messages that both carry today's gift content but
differ in their framing header, and mutates the plan exactly once: the
first call changes and persists the plan, the second call leaves the store
entry unchanged and persists nothing. -/
theorem C3_same_day_two_calls (plan : UserPlan) (today : Date)
    (hnd : plan.last_gift_date ≠ some today) :
    (gift (some plan) today true).messages
        = [freshHeader ++ get_gift_text today] ∧
    (gift ((gift (some plan) today true).store) today true).messages
        = [duplicateHeader ++ get_gift_text today] ∧
    (gift ((gift (some plan) today true).store) today true).store
        = (gift (some plan) today true).store ∧
    (gift ((gift (some plan) today true).store) today true).persisted = false ∧
    (gift (some plan) today true).persisted = true ∧
    (gift (some plan) today true).store ≠ some plan := by
  simp only [gift_fresh plan today hnd]
  refine ⟨rfl, ?_, ?_, ?_, trivial, ?_⟩
  · rw [gift_duplicate _ _ (giftAdvance_last plan today)]
    rfl
  · rw [gift_duplicate _ _ (giftAdvance_last plan today)]
  · rw [gift_duplicate _ _ (giftAdvance_last plan today)]
  · intro heq
    injection heq with heq2
    refine hnd ?_
    rw [← heq2]
    exact giftAdvance_last plan today

/-- C3 (witness): the amended theorem at a concrete plan and day. -/
theorem C3_same_day_two_calls_witness :
    (gift (some ⟨⟨2024, 12, 1⟩, ⟨2024, 12, 31⟩, ⟨2024, 12, 15⟩, none⟩)
        ⟨2024, 12, 15⟩ true).messages
      = [freshHeader ++ get_gift_text ⟨2024, 12, 15⟩] ∧
    (gift ((gift (some ⟨⟨2024, 12, 1⟩, ⟨2024, 12, 31⟩, ⟨2024, 12, 15⟩, none⟩)
        ⟨2024, 12, 15⟩ true).store) ⟨2024, 12, 15⟩ true).messages
      = [duplicateHeader ++ get_gift_text ⟨2024, 12, 15⟩] ∧
    (gift ((gift (some ⟨⟨2024, 12, 1⟩, ⟨2024, 12, 31⟩, ⟨2024, 12, 15⟩, none⟩)
        ⟨2024, 12, 15⟩ true).store) ⟨2024, 12, 15⟩ true).store
      = (gift (some ⟨⟨2024, 12, 1⟩, ⟨2024, 12, 31⟩, ⟨2024, 12, 15⟩, none⟩)
          ⟨2024, 12, 15⟩ true).store ∧
    (gift ((gift (some ⟨⟨2024, 12, 1⟩, ⟨2024, 12, 31⟩, ⟨2024, 12, 15⟩, none⟩)
        ⟨2024, 12, 15⟩ true).store) ⟨2024, 12, 15⟩ true).persisted = false ∧
    (gift (some ⟨⟨2024, 12, 1⟩, ⟨2024, 12, 31⟩, ⟨2024, 12, 15⟩, none⟩)
        ⟨2024, 12, 15⟩ true).persisted = true ∧
    (gift (some ⟨⟨2024, 12, 1⟩, ⟨2024, 12, 31⟩, ⟨2024, 12, 15⟩, none⟩)
        ⟨2024, 12, 15⟩ true).store
      ≠ some ⟨⟨2024, 12, 1⟩, ⟨2024, 12, 31⟩, ⟨2024, 12, 15⟩, none⟩ :=
  C3_same_day_two_calls ⟨⟨2024, 12, 1⟩, ⟨2024, 12, 31⟩, ⟨2024, 12, 15⟩, none⟩
    ⟨2024, 12, 15⟩ (by decide)

/-- C9: a non-duplicate on-demand request on `today` always records
`last_gift_date := today` and persists, also in the branch where
`next_date` is already past `today` (where the plan is persisted without
advancing `next_date`); a second request the same day then takes the
duplicate-replay branch and leaves the plan unmodified and unpersisted. -/
theorem C9_persist_without_advance (plan : UserPlan) (today : Date)
    (hnd : plan.last_gift_date ≠ some today) :
    (gift (some plan) today true).store = some (giftAdvance plan today) ∧
    (gift (some plan) today true).persisted = true ∧
    (giftAdvance plan today).last_gift_date = some today ∧
    (today.key < plan.next_date.key →
      giftAdvance plan today = { plan with last_gift_date := some today }) ∧
    gift (some (giftAdvance plan today)) today true
      = ⟨[duplicateMsg today], some (giftAdvance plan today), false, false⟩ := by
  refine ⟨?_, ?_, giftAdvance_last plan today, ?_, ?_⟩
  · simp only [gift_fresh plan today hnd]
  · simp only [gift_fresh plan today hnd]
  · intro hlt
    unfold giftAdvance
    rw [if_neg (Nat.not_le.mpr hlt)]
  · exact gift_duplicate _ _ (giftAdvance_last plan today)

/-- C9 (witness): the theorem at a plan whose `next_date` (2024-12-09) is
ahead of `today` (2024-12-06). -/
theorem C9_persist_without_advance_witness :
    (gift (some ⟨⟨2024, 12, 5⟩, ⟨2024, 12, 10⟩, ⟨2024, 12, 9⟩, none⟩)
        ⟨2024, 12, 6⟩ true).store
      = some (giftAdvance ⟨⟨2024, 12, 5⟩, ⟨2024, 12, 10⟩, ⟨2024, 12, 9⟩, none⟩
          ⟨2024, 12, 6⟩) ∧
    (gift (some ⟨⟨2024, 12, 5⟩, ⟨2024, 12, 10⟩, ⟨2024, 12, 9⟩, none⟩)
        ⟨2024, 12, 6⟩ true).persisted = true ∧
    (giftAdvance ⟨⟨2024, 12, 5⟩, ⟨2024, 12, 10⟩, ⟨2024, 12, 9⟩, none⟩
        ⟨2024, 12, 6⟩).last_gift_date = some ⟨2024, 12, 6⟩ ∧
    ((⟨2024, 12, 6⟩ : Date).key < (⟨2024, 12, 9⟩ : Date).key →
      giftAdvance ⟨⟨2024, 12, 5⟩, ⟨2024, 12, 10⟩, ⟨2024, 12, 9⟩, none⟩ ⟨2024, 12, 6⟩
        = ⟨⟨2024, 12, 5⟩, ⟨2024, 12, 10⟩, ⟨2024, 12, 9⟩, some ⟨2024, 12, 6⟩⟩) ∧
    gift (some (giftAdvance ⟨⟨2024, 12, 5⟩, ⟨2024, 12, 10⟩, ⟨2024, 12, 9⟩, none⟩
        ⟨2024, 12, 6⟩)) ⟨2024, 12, 6⟩ true
      = ⟨[duplicateMsg ⟨2024, 12, 6⟩],
          some (giftAdvance ⟨⟨2024, 12, 5⟩, ⟨2024, 12, 10⟩, ⟨2024, 12, 9⟩, none⟩
            ⟨2024, 12, 6⟩), false, false⟩ :=
  C9_persist_without_advance ⟨⟨2024, 12, 5⟩, ⟨2024, 12, 10⟩, ⟨2024, 12, 9⟩, none⟩
    ⟨2024, 12, 6⟩ (by decide)

lemma pick_end_reject (prev : Option UserPlan) (start_dt : Date) (end_day : Nat)
    (today : Date)
    (h : (⟨start_dt.year, 12, end_day⟩ : Date).key < start_dt.key) :
    pick_end_date prev start_dt end_day today
      = ⟨[rePromptMsg], prev, false, STATE_END⟩ := by
  simp only [pick_end_date]
  rw [if_pos h]

lemma pick_end_window (prev : Option UserPlan) (start_dt : Date) (end_day : Nat)
    (today : Date)
    (h1 : ¬ (⟨start_dt.year, 12, end_day⟩ : Date).key < start_dt.key)
    (h2 : start_dt.key ≤ today.key ∧
      today.key ≤ (⟨start_dt.year, 12, end_day⟩ : Date).key) :
    pick_end_date prev start_dt end_day today
      = ⟨[readyMsg, get_gift_text today],
          some ⟨start_dt, ⟨start_dt.year, 12, end_day⟩, today.nextDay, some today⟩,
          true, CONVERSATION_END⟩ := by
  simp only [pick_end_date]
  rw [if_neg h1, if_pos h2]

lemma pick_end_outside (prev : Option UserPlan) (start_dt : Date) (end_day : Nat)
    (today : Date)
    (h1 : ¬ (⟨start_dt.year, 12, end_day⟩ : Date).key < start_dt.key)
    (h2 : ¬ (start_dt.key ≤ today.key ∧
      today.key ≤ (⟨start_dt.year, 12, end_day⟩ : Date).key)) :
    pick_end_date prev start_dt end_day today
      = ⟨[readyMsg],
          some ⟨start_dt, ⟨start_dt.year, 12, end_day⟩, Date.max start_dt today, none⟩,
          true, CONVERSATION_END⟩ := by
  simp only [pick_end_date]
  rw [if_neg h1, if_neg h2]

/-- C4: `next_date` is monotonically non-decreasing across every sequence of
plan-mutating operations (scheduled fires and on-demand deliveries): running
any list of such operations from a stored plan never decreases
`next_date`. -/
theorem C4_next_date_monotone (ops : List PlanOp) :
    ∀ plan p' : UserPlan, (∀ op ∈ ops, op.ValidDates) → plan.next_date.Valid →
      ops.foldl runOp (some plan) = some p' →
      plan.next_date.key ≤ p'.next_date.key := by
  induction ops with
  | nil =>
      intro plan p' _ _ h
      simp only [List.foldl] at h
      injection h with h
      rw [h]
  | cons op ops ih =>
      intro plan p' hops hv h
      obtain ⟨q, hq, hle, hqv⟩ := runOp_mono plan op hv (hops op (List.mem_cons_self op ops))
      simp only [List.foldl] at h
      rw [hq] at h
      exact Nat.le_trans hle
        (ih q p' (fun o ho => hops o (List.mem_cons_of_mem op ho)) hqv h)

/-- C4 (witness): a scheduled fire followed by an on-demand delivery on
2024-12-08 moves `next_date` from 2024-12-05 to 2024-12-09, which is not a
decrease. -/
theorem C4_next_date_monotone_witness :
    (⟨2024, 12, 5⟩ : Date).key ≤ (⟨2024, 12, 9⟩ : Date).key :=
  C4_next_date_monotone [PlanOp.scheduled, PlanOp.onDemand ⟨2024, 12, 8⟩]
    ⟨⟨2024, 12, 5⟩, ⟨2024, 12, 10⟩, ⟨2024, 12, 5⟩, none⟩
    ⟨⟨2024, 12, 5⟩, ⟨2024, 12, 10⟩, ⟨2024, 12, 9⟩, some ⟨2024, 12, 8⟩⟩
    (by
      intro op ho
      simp only [List.mem_cons, List.not_mem_nil, or_false] at ho
      rcases ho with rfl | rfl
      · trivial
      · exact (by decide : (⟨2024, 12, 8⟩ : Date).Valid))
    (by decide) (by decide)

/-- C5: the stored-plan invariant (`start_date ≤ next_date`, and
`last_gift_date < next_date` whenever present) holds after plan creation
(`pick_end_date` with a persisted result) and is preserved by every
mutating operation (on-demand delivery and scheduled fire). -/
theorem C5_plan_invariant :
    (∀ (prev : Option UserPlan) (start_dt : Date) (end_day : Nat) (today : Date)
        (p : UserPlan), today.Valid →
      (pick_end_date prev start_dt end_day today).persisted = true →
      (pick_end_date prev start_dt end_day today).store = some p → PlanInv p) ∧
    (∀ (plan : UserPlan) (today : Date) (p : UserPlan), today.Valid → PlanInv plan →
      (gift (some plan) today true).store = some p → PlanInv p) ∧
    (∀ (plan p : UserPlan), plan.next_date.Valid → PlanInv plan →
      (send_scheduled_gift (some plan) true).store = some p → PlanInv p) := by
  refine ⟨?_, ?_, ?_⟩
  · intro prev start_dt end_day today p htv hpers hstore
    by_cases h1 : (⟨start_dt.year, 12, end_day⟩ : Date).key < start_dt.key
    · rw [pick_end_reject prev start_dt end_day today h1] at hpers
      exact absurd hpers (by simp)
    · by_cases h2 : start_dt.key ≤ today.key ∧
        today.key ≤ (⟨start_dt.year, 12, end_day⟩ : Date).key
      · rw [pick_end_window prev start_dt end_day today h1 h2] at hstore
        simp only [Option.some.injEq] at hstore
        subst hstore
        refine ⟨?_, ?_⟩
        · exact Nat.le_of_lt (Nat.lt_of_le_of_lt h2.1 (key_lt_nextDay today htv))
        · simp only [lastOkB]
          exact decide_eq_true (key_lt_nextDay today htv)
      · rw [pick_end_outside prev start_dt end_day today h1 h2] at hstore
        simp only [Option.some.injEq] at hstore
        subst hstore
        refine ⟨?_, rfl⟩
        unfold Date.max
        by_cases hlt : start_dt.key < today.key
        · rw [if_pos hlt]
          exact Nat.le_of_lt hlt
        · rw [if_neg hlt]
  · intro plan today p htv hinv hstore
    obtain ⟨hi1, hi2⟩ := hinv
    by_cases hd : plan.last_gift_date = some today
    · rw [gift_duplicate plan today hd] at hstore
      simp only [Option.some.injEq] at hstore
      subst hstore
      exact ⟨hi1, hi2⟩
    · simp only [gift_fresh plan today hd, Option.some.injEq] at hstore
      subst hstore
      unfold giftAdvance
      by_cases hle : plan.next_date.key ≤ today.key
      · rw [if_pos hle]
        refine ⟨?_, ?_⟩
        · exact Nat.le_trans hi1
            (Nat.le_trans hle (Nat.le_of_lt (key_lt_nextDay today htv)))
        · simp only [lastOkB]
          exact decide_eq_true (key_lt_nextDay today htv)
      · rw [if_neg hle]
        refine ⟨hi1, ?_⟩
        simp only [lastOkB]
        exact decide_eq_true (Nat.lt_of_not_le hle)
  · intro plan p hnv hinv hstore
    obtain ⟨hi1, hi2⟩ := hinv
    simp only [send_scheduled_some, Option.some.injEq] at hstore
    subst hstore
    refine ⟨?_, ?_⟩
    · exact Nat.le_trans hi1 (Nat.le_of_lt (key_lt_nextDay plan.next_date hnv))
    · simp only [lastOkB]
      exact decide_eq_true (key_lt_nextDay plan.next_date hnv)

/-- C5 (witness): the invariant established by a creation inside the window
and preserved by one on-demand delivery and one scheduled fire, at concrete
plans. -/
theorem C5_plan_invariant_witness :
    PlanInv ⟨⟨2024, 12, 5⟩, ⟨2024, 12, 10⟩, ⟨2024, 12, 6⟩, some ⟨2024, 12, 5⟩⟩ ∧
    PlanInv ⟨⟨2024, 12, 5⟩, ⟨2024, 12, 10⟩, ⟨2024, 12, 8⟩, some ⟨2024, 12, 7⟩⟩ ∧
    PlanInv ⟨⟨2024, 12, 5⟩, ⟨2024, 12, 10⟩, ⟨2024, 12, 7⟩, some ⟨2024, 12, 6⟩⟩ :=
  ⟨C5_plan_invariant.1 none ⟨2024, 12, 5⟩ 10 ⟨2024, 12, 5⟩
      ⟨⟨2024, 12, 5⟩, ⟨2024, 12, 10⟩, ⟨2024, 12, 6⟩, some ⟨2024, 12, 5⟩⟩
      (by decide) rfl rfl,
   C5_plan_invariant.2.1 ⟨⟨2024, 12, 5⟩, ⟨2024, 12, 10⟩, ⟨2024, 12, 6⟩, some ⟨2024, 12, 5⟩⟩
      ⟨2024, 12, 7⟩ ⟨⟨2024, 12, 5⟩, ⟨2024, 12, 10⟩, ⟨2024, 12, 8⟩, some ⟨2024, 12, 7⟩⟩
      (by decide) (by decide) rfl,
   C5_plan_invariant.2.2 ⟨⟨2024, 12, 5⟩, ⟨2024, 12, 10⟩, ⟨2024, 12, 6⟩, some ⟨2024, 12, 5⟩⟩
      ⟨⟨2024, 12, 5⟩, ⟨2024, 12, 10⟩, ⟨2024, 12, 7⟩, some ⟨2024, 12, 6⟩⟩
      (by decide) (by decide) rfl⟩

/-- C6: on plan creation, the first effective due date is
`max(start_date, today)`: when the window has already started the gift for
`today` is delivered immediately (and `max(start_date, today)` is `today`),
otherwise no gift is sent and the stored `next_date` is
`max(start_date, today)`. -/
theorem C6_first_due_date (prev : Option UserPlan) (start_dt : Date) (end_day : Nat)
    (today : Date)
    (hok : ¬ (⟨start_dt.year, 12, end_day⟩ : Date).key < start_dt.key) :
    (start_dt.key ≤ today.key ∧ today.key ≤ (⟨start_dt.year, 12, end_day⟩ : Date).key →
      (pick_end_date prev start_dt end_day today).messages
          = [readyMsg, get_gift_text today] ∧
      (Date.max start_dt today).key = today.key) ∧
    (¬ (start_dt.key ≤ today.key ∧
        today.key ≤ (⟨start_dt.year, 12, end_day⟩ : Date).key) →
      (pick_end_date prev start_dt end_day today).messages = [readyMsg] ∧
      (pick_end_date prev start_dt end_day today).store
        = some ⟨start_dt, ⟨start_dt.year, 12, end_day⟩, Date.max start_dt today, none⟩) := by
  constructor
  · intro h2
    rw [pick_end_window prev start_dt end_day today hok h2]
    refine ⟨rfl, ?_⟩
    unfold Date.max
    by_cases hlt : start_dt.key < today.key
    · rw [if_pos hlt]
    · rw [if_neg hlt]
      exact Nat.le_antisymm h2.1 (Nat.le_of_not_lt hlt)
  · intro h2
    rw [pick_end_outside prev start_dt end_day today hok h2]
    exact ⟨rfl, rfl⟩

/-- C6 (witness): the theorem at a creation inside the window
(today = 2024-12-06) and one before the window (today = 2024-12-01). -/
theorem C6_first_due_date_witness :
    ((pick_end_date none ⟨2024, 12, 5⟩ 10 ⟨2024, 12, 6⟩).messages
        = [readyMsg, get_gift_text ⟨2024, 12, 6⟩] ∧
      (Date.max ⟨2024, 12, 5⟩ ⟨2024, 12, 6⟩).key = (⟨2024, 12, 6⟩ : Date).key) ∧
    ((pick_end_date none ⟨2024, 12, 5⟩ 10 ⟨2024, 12, 1⟩).messages = [readyMsg] ∧
      (pick_end_date none ⟨2024, 12, 5⟩ 10 ⟨2024, 12, 1⟩).store
        = some ⟨⟨2024, 12, 5⟩, ⟨2024, 12, 10⟩, Date.max ⟨2024, 12, 5⟩ ⟨2024, 12, 1⟩, none⟩) :=
  ⟨(C6_first_due_date none ⟨2024, 12, 5⟩ 10 ⟨2024, 12, 6⟩ (by decide)).1 (by decide),
   (C6_first_due_date none ⟨2024, 12, 5⟩ 10 ⟨2024, 12, 1⟩ (by decide)).2 (by decide)⟩

/-- C8: selecting an end date strictly before the start date is rejected —
the user is re-prompted, the conversation stays in the end-selection state,
and no store write happens (the previous entry is untouched); selecting an
end date equal to the start date is accepted and persists a one-day window
(`end_date = start_date`). -/
theorem C8_end_date_boundary (prev : Option UserPlan) (start_dt today : Date)
    (end_day : Nat) :
    ((⟨start_dt.year, 12, end_day⟩ : Date).key < start_dt.key →
      pick_end_date prev start_dt end_day today
        = ⟨[rePromptMsg], prev, false, STATE_END⟩) ∧
    (start_dt = ⟨start_dt.year, 12, end_day⟩ →
      (pick_end_date prev start_dt end_day today).persisted = true ∧
      (pick_end_date prev start_dt end_day today).state = CONVERSATION_END ∧
      (pick_end_date prev start_dt end_day today).store.map
          (fun p => (p.start_date, p.end_date)) = some (start_dt, start_dt)) := by
  constructor
  · intro h1
    exact pick_end_reject prev start_dt end_day today h1
  · intro heq
    have h1 : ¬ (⟨start_dt.year, 12, end_day⟩ : Date).key < start_dt.key := by
      rw [← heq]
      exact Nat.lt_irrefl _
    by_cases h2 : start_dt.key ≤ today.key ∧
      today.key ≤ (⟨start_dt.year, 12, end_day⟩ : Date).key
    · rw [pick_end_window prev start_dt end_day today h1 h2]
      refine ⟨rfl, rfl, ?_⟩
      simp only [Option.map]
      rw [← heq]
    · rw [pick_end_outside prev start_dt end_day today h1 h2]
      refine ⟨rfl, rfl, ?_⟩
      simp only [Option.map]
      rw [← heq]

/-- C8 (witness): rejection at end 2024-12-05 before start 2024-12-10, and
acceptance of the one-day window start = end = 2024-12-26. -/
theorem C8_end_date_boundary_witness :
    pick_end_date none ⟨2024, 12, 10⟩ 5 ⟨2024, 12, 8⟩
        = ⟨[rePromptMsg], none, false, STATE_END⟩ ∧
    ((pick_end_date none ⟨2024, 12, 26⟩ 26 ⟨2024, 12, 8⟩).persisted = true ∧
      (pick_end_date none ⟨2024, 12, 26⟩ 26 ⟨2024, 12, 8⟩).state = CONVERSATION_END ∧
      (pick_end_date none ⟨2024, 12, 26⟩ 26 ⟨2024, 12, 8⟩).store.map
          (fun p => (p.start_date, p.end_date))
        = some (⟨2024, 12, 26⟩, ⟨2024, 12, 26⟩)) :=
  ⟨(C8_end_date_boundary none ⟨2024, 12, 10⟩ ⟨2024, 12, 8⟩ 5).1 (by decide),
   (C8_end_date_boundary none ⟨2024, 12, 26⟩ ⟨2024, 12, 8⟩ 26).2 (by decide)⟩

/-- C10: completing date selection with `start_date ≤ today ≤ end_date`
sends today's gift during setup and stores the plan with
`last_gift_date = today` and `next_date = today + 1`; with `today` outside
the window no gift is sent at setup and the plan is stored with no
`last_gift_date` and `next_date = max(start_date, today)`. -/
theorem C10_setup_delivery (prev : Option UserPlan) (start_dt : Date) (end_day : Nat)
    (today : Date)
    (hok : ¬ (⟨start_dt.year, 12, end_day⟩ : Date).key < start_dt.key) :
    (start_dt.key ≤ today.key ∧ today.key ≤ (⟨start_dt.year, 12, end_day⟩ : Date).key →
      pick_end_date prev start_dt end_day today
        = ⟨[readyMsg, get_gift_text today],
            some ⟨start_dt, ⟨start_dt.year, 12, end_day⟩, today.nextDay, some today⟩,
            true, CONVERSATION_END⟩) ∧
    (¬ (start_dt.key ≤ today.key ∧
        today.key ≤ (⟨start_dt.year, 12, end_day⟩ : Date).key) →
      pick_end_date prev start_dt end_day today
        = ⟨[readyMsg],
            some ⟨start_dt, ⟨start_dt.year, 12, end_day⟩, Date.max start_dt today, none⟩,
            true, CONVERSATION_END⟩) :=
  ⟨pick_end_window prev start_dt end_day today hok,
   pick_end_outside prev start_dt end_day today hok⟩

/-- C10 (witness): setup on 2024-12-06 inside the 05–10 window delivers
today's gift and advances, setup on 2024-12-01 before the window delivers
nothing and stores `max(start, today)`. -/
theorem C10_setup_delivery_witness :
    pick_end_date none ⟨2024, 12, 5⟩ 10 ⟨2024, 12, 6⟩
        = ⟨[readyMsg, get_gift_text ⟨2024, 12, 6⟩],
            some ⟨⟨2024, 12, 5⟩, ⟨2024, 12, 10⟩, Date.nextDay ⟨2024, 12, 6⟩,
              some ⟨2024, 12, 6⟩⟩,
            true, CONVERSATION_END⟩ ∧
    pick_end_date none ⟨2024, 12, 5⟩ 10 ⟨2024, 12, 1⟩
        = ⟨[readyMsg],
            some ⟨⟨2024, 12, 5⟩, ⟨2024, 12, 10⟩, Date.max ⟨2024, 12, 5⟩ ⟨2024, 12, 1⟩, none⟩,
            true, CONVERSATION_END⟩ :=
  ⟨(C10_setup_delivery none ⟨2024, 12, 5⟩ 10 ⟨2024, 12, 6⟩ (by decide)).1 (by decide),
   (C10_setup_delivery none ⟨2024, 12, 5⟩ 10 ⟨2024, 12, 1⟩ (by decide)).2 (by decide)⟩
